import Mathlib

/-
Verification of the MCP crontab server/client (mcp_crontab_server.py,
mcp_crontab_client_http.py) against its natural-language specification.

The Python sources are shallowly embedded as total Lean functions:
  * JSON values are an inductive type whose array/object spines are part of
    the inductive, so every function on them is plain structural recursion
    (and therefore kernel-reducible).
  * The host-command facility (subprocess.run with shell=True), the clock and
    the pid are an explicit `World` record, per spec section 1 these are
    opaque collaborators returning structured data.
  * The module's global namespace is an explicit association list
    (`moduleGlobals`) mirroring the top-level bindings of
    mcp_crontab_server.py in definition order.
  * Fallible steps return Option/Except; an exception escaping do_POST is the
    `HandlerOutcome.raised` constructor.
-/

set_option maxRecDepth 8000

namespace McpCrontab

/-- JSON values. Array and object spines are constructors of the same
inductive (`arrNil`/`arrCons`, `objNil`/`objCons`) instead of nested `List`s,
so that serialisation, parsing and field lookup are structural recursions
that the kernel can evaluate. Numeric literals are modelled as integers; the
program's envelopes only ever carry integer counts and pids. -/
inductive Json where
  | null : Json
  | boolVal : Bool → Json
  | numVal : Int → Json
  | strVal : String → Json
  | arrNil : Json
  | arrCons : Json → Json → Json
  | objNil : Json
  | objCons : String → Json → Json → Json
deriving Repr, DecidableEq

/-- Build a JSON array from a list of values. -/
def jArr (l : List Json) : Json := l.foldr Json.arrCons Json.arrNil

/-- Build a JSON object from an association list (Python dicts preserve
insertion order, as does this spine). -/
def jObj (l : List (String × Json)) : Json :=
  l.foldr (fun kv t => Json.objCons kv.1 kv.2 t) Json.objNil

/-- The fields of a JSON object, or `none` when the value is not an object
(Python: `f(**params)` with a non-mapping raises TypeError). -/
def objFieldsOf : Json → Option (List (String × Json))
  | Json.objNil => some []
  | Json.objCons k v t => (objFieldsOf t).map (fun fs => (k, v) :: fs)
  | _ => none

/-- Left brace as a string. -/
def lbrace : String := "\x7b"

/-- Right brace as a string. -/
def rbrace : String := "\x7d"

/-- Single-quote character as a string. -/
def squote : String := "\x27"

/-- UTF-8 size in bytes of one character (mirrors `len(ch.encode("utf-8"))`). -/
def charUtf8Size (c : Char) : Nat :=
  if c.toNat < 0x80 then 1
  else if c.toNat < 0x800 then 2
  else if c.toNat < 0x10000 then 3
  else 4

/-- UTF-8 byte length of a string: `len(s.encode("utf-8"))`. -/
def utf8Length (s : String) : Nat := (s.data.map charUtf8Size).foldr (· + ·) 0

/-- Decimal rendering of a natural number (Python `str(n)`). -/
def natToStr (n : Nat) : String := ⟨Nat.toDigits 10 n⟩

/-- Decimal rendering of an integer. -/
def intToStr (n : Int) : String :=
  if n < 0 then "-" ++ natToStr (-n).toNat else natToStr n.toNat

/-- JSON string escaping, as json.dumps performs it for the characters this
program can produce (quote, backslash and ASCII control whitespace; the
ensure_ascii escaping of non-ASCII characters is not modelled, no claim
depends on it). -/
def escapeChar (c : Char) : String :=
  if c = '"' then "\\\""
  else if c = '\\' then "\\\\"
  else if c = '\n' then "\\n"
  else if c = '\r' then "\\r"
  else if c = '\t' then "\\t"
  else ⟨[c]⟩

/-- Escape every character of a string for JSON output. -/
def escapeStr (s : String) : String := (s.data.map escapeChar).foldr (· ++ ·) ""

/-- A JSON string literal with quotes. -/
def quoteStr (s : String) : String := "\"" ++ escapeStr s ++ "\""

/-- Compact serialisation, computed as a triple in one structural recursion:
component 1 is the rendering of the value itself, component 2 renders an
array spine continuing after a previous element (up to the closing bracket),
component 3 does the same for an object spine.  The separators are Python's
json.dumps defaults `", "` and `": "`. -/
def dumpsP : Json → String × String × String
  | Json.null => ("null", "]", rbrace)
  | Json.boolVal true => ("true", "]", rbrace)
  | Json.boolVal false => ("false", "]", rbrace)
  | Json.numVal n => (intToStr n, "]", rbrace)
  | Json.strVal s => (quoteStr s, "]", rbrace)
  | Json.arrNil => ("[]", "]", rbrace)
  | Json.arrCons h t =>
      ("[" ++ (dumpsP h).1 ++ (dumpsP t).2.1,
       ", " ++ (dumpsP h).1 ++ (dumpsP t).2.1,
       rbrace)
  | Json.objNil => (lbrace ++ rbrace, "]", rbrace)
  | Json.objCons k v t =>
      (lbrace ++ quoteStr k ++ ": " ++ (dumpsP v).1 ++ (dumpsP t).2.2,
       "]",
       ", " ++ quoteStr k ++ ": " ++ (dumpsP v).1 ++ (dumpsP t).2.2)

/-- `json.dumps(x)` with default separators, as used by `_handle_error`. -/
def dumpsCompact (j : Json) : String := (dumpsP j).1

/-- `n` spaces. -/
def spaces (n : Nat) : String := ⟨List.replicate n ' '⟩

/-- Indented serialisation (`json.dumps(x, indent=2)`), same triple shape as
`dumpsP`; the `Nat` argument is the indentation level of the enclosing
container. Used by `_send_json_response`. -/
def dumpsIndentP : Nat → Json → String × String × String
  | _, Json.null => ("null", "]", rbrace)
  | _, Json.boolVal true => ("true", "]", rbrace)
  | _, Json.boolVal false => ("false", "]", rbrace)
  | _, Json.numVal n => (intToStr n, "]", rbrace)
  | _, Json.strVal s => (quoteStr s, "]", rbrace)
  | _, Json.arrNil => ("[]", "]", rbrace)
  | l, Json.arrCons h t =>
      ("[\n" ++ spaces (l + 2) ++ (dumpsIndentP (l + 2) h).1 ++ (dumpsIndentP l t).2.1,
       ",\n" ++ spaces (l + 2) ++ (dumpsIndentP (l + 2) h).1 ++ (dumpsIndentP l t).2.1,
       rbrace)
  | l, Json.objNil => (lbrace ++ rbrace, "\n" ++ spaces l ++ "]", "\n" ++ spaces l ++ rbrace)
  | l, Json.objCons k v t =>
      (lbrace ++ "\n" ++ spaces (l + 2) ++ quoteStr k ++ ": " ++ (dumpsIndentP (l + 2) v).1
         ++ (dumpsIndentP l t).2.2,
       "]",
       ",\n" ++ spaces (l + 2) ++ quoteStr k ++ ": " ++ (dumpsIndentP (l + 2) v).1
         ++ (dumpsIndentP l t).2.2)

/-- `json.dumps(x, indent=2)`. For the empty containers the arrRest/objRest
components close at the enclosing level; no claim inspects indented bytes
beyond equality, so the exact layout only needs to be a fixed function of the
value. -/
def dumpsIndent (j : Json) : String := (dumpsIndentP 0 j).1

/-- Whitespace skipping for the JSON parser. -/
def skipWs : List Char → List Char
  | c :: rest =>
      if c = ' ' ∨ c = '\t' ∨ c = '\n' ∨ c = '\r' then skipWs rest else c :: rest
  | [] => []

/-- One escape character inside a JSON string literal. -/
def escCharOf (c : Char) : Option Char :=
  if c = '"' then some '"'
  else if c = '\\' then some '\\'
  else if c = '/' then some '/'
  else if c = 'n' then some '\n'
  else if c = 't' then some '\t'
  else if c = 'r' then some '\r'
  else if c = 'b' then some (Char.ofNat 8)
  else if c = 'f' then some (Char.ofNat 12)
  else none

/-- Body of a JSON string literal after the opening quote; the accumulator is
reversed on completion. `\\u` escapes are not modelled (none occur in the
program's traffic). -/
def strLitGo : List Char → List Char → Option (String × List Char)
  | [], _ => none
  | '"' :: rest, acc => some (⟨acc.reverse⟩, rest)
  | '\\' :: e :: rest, acc =>
      match escCharOf e with
      | some c => strLitGo rest (c :: acc)
      | none => none
  | '\\' :: [], _ => none
  | c :: rest, acc => strLitGo rest (c :: acc)

/-- A JSON string literal including the opening quote. -/
def parseStrLit : List Char → Option (String × List Char)
  | '"' :: rest => strLitGo rest []
  | _ => none

/-- Decimal digit value. -/
def digitVal (c : Char) : Option Nat :=
  if '0' ≤ c ∧ c ≤ '9' then some (c.toNat - '0'.toNat) else none

/-- Digits of an integer literal, accumulating left to right; requires at
least one digit (tracked by the Bool). -/
def digitsGo : List Char → Nat → Bool → Option (Nat × List Char)
  | [], acc, seen => if seen then some (acc, []) else none
  | c :: rest, acc, seen =>
      match digitVal c with
      | some d => digitsGo rest (acc * 10 + d) true
      | none => if seen then some (acc, c :: rest) else none

/-- A JSON integer literal with optional leading minus. Fractional and
exponent forms are rejected (the program never sends them); Python would
parse them as floats. -/
def parseIntLit : List Char → Option (Int × List Char)
  | '-' :: rest =>
      match digitsGo rest 0 false with
      | some (n, r) => some (-(n : Int), r)
      | none => none
  | cs =>
      match digitsGo cs 0 false with
      | some (n, r) => some ((n : Int), r)
      | none => none

/-- Exact keyword match at the head of the input. -/
def eatKeyword : List Char → List Char → Option (List Char)
  | [], cs => some cs
  | k :: ks, c :: cs => if c = k then eatKeyword ks cs else none
  | _ :: _, [] => none

/-- Parsing task: a whole value, or the continuation of an array/object spine
after the element just read (comma- or close-bracket-led). -/
inductive PTask where
  | value : PTask
  | arrTail : PTask
  | objTail : PTask

/-- One object member `"key": value`, given the value parser at the current
fuel is supplied by the caller through `parseGo`.  Defined inside `parseGo`
by recursion on fuel. -/
def parseGo : Nat → PTask → List Char → Option (Json × List Char)
  | 0, _, _ => none
  | fuel + 1, PTask.value, cs =>
      match skipWs cs with
      | [] => none
      | '{' :: rest =>
          match skipWs rest with
          | '}' :: rest2 => some (Json.objNil, rest2)
          | other =>
              match parseStrLit other with
              | none => none
              | some (k, r1) =>
                  match skipWs r1 with
                  | ':' :: r2 =>
                      match parseGo fuel PTask.value r2 with
                      | none => none
                      | some (v, r3) =>
                          match parseGo fuel PTask.objTail r3 with
                          | none => none
                          | some (tl, r4) => some (Json.objCons k v tl, r4)
                  | _ => none
      | '[' :: rest =>
          match skipWs rest with
          | ']' :: rest2 => some (Json.arrNil, rest2)
          | other =>
              match parseGo fuel PTask.value other with
              | none => none
              | some (v, r1) =>
                  match parseGo fuel PTask.arrTail r1 with
                  | none => none
                  | some (tl, r2) => some (Json.arrCons v tl, r2)
      | '"' :: rest =>
          match strLitGo rest [] with
          | none => none
          | some (s, r) => some (Json.strVal s, r)
      | 't' :: rest =>
          match eatKeyword ['r', 'u', 'e'] rest with
          | some r => some (Json.boolVal true, r)
          | none => none
      | 'f' :: rest =>
          match eatKeyword ['a', 'l', 's', 'e'] rest with
          | some r => some (Json.boolVal false, r)
          | none => none
      | 'n' :: rest =>
          match eatKeyword ['u', 'l', 'l'] rest with
          | some r => some (Json.null, r)
          | none => none
      | other =>
          match parseIntLit other with
          | some (n, r) => some (Json.numVal n, r)
          | none => none
  | fuel + 1, PTask.arrTail, cs =>
      match skipWs cs with
      | ']' :: rest => some (Json.arrNil, rest)
      | ',' :: rest =>
          match parseGo fuel PTask.value rest with
          | none => none
          | some (v, r1) =>
              match parseGo fuel PTask.arrTail r1 with
              | none => none
              | some (tl, r2) => some (Json.arrCons v tl, r2)
      | _ => none
  | fuel + 1, PTask.objTail, cs =>
      match skipWs cs with
      | '}' :: rest => some (Json.objNil, rest)
      | ',' :: rest =>
          match parseStrLit (skipWs rest) with
          | none => none
          | some (k, r1) =>
              match skipWs r1 with
              | ':' :: r2 =>
                  match parseGo fuel PTask.value r2 with
                  | none => none
                  | some (v, r3) =>
                      match parseGo fuel PTask.objTail r3 with
                      | none => none
                      | some (tl, r4) => some (Json.objCons k v tl, r4)
              | _ => none
      | _ => none

/-- `json.loads(s)`: parse one JSON value and require the remainder to be
whitespace only.  The fuel `s.length + 2` dominates the recursion depth: each
fuel step consumes at least one input character. -/
def parseJson (s : String) : Option Json :=
  match parseGo (s.data.length + 2) PTask.value s.data with
  | some (j, rest) => if skipWs rest = [] then some j else none
  | none => none

/-! ## Host environment -/

/-- The opaque host collaborators (spec section 1): `run` is
`subprocess.run(cmd, shell=True, capture_output=True, text=True)` returning
(returncode, stdout, stderr); `now` is `datetime.datetime.now().isoformat()`;
`pid` is `os.getpid()`. -/
structure World where
  run : String → Int × String × String
  now : String
  pid : Int

/-- A fixed world for concrete evaluations: every command fails with empty
output. -/
def defaultWorld : World :=
  { run := fun _ => (1, "", ""), now := "2026-01-01T00:00:00", pid := 12345 }

/-- Python `str.splitlines` restricted to `\n` separators (the only separator
subprocess text output contains here): split on newlines, without a trailing
empty line for a trailing newline, and `[]` for the empty string. -/
def splitlinesGo : List Char → List Char → List String
  | [], cur => [⟨cur.reverse⟩]
  | '\n' :: rest, cur => (⟨cur.reverse⟩ : String) :: splitlinesGo rest []
  | c :: rest, cur => splitlinesGo rest (c :: cur)

/-- `s.splitlines()`. -/
def pySplitlines (s : String) : List String :=
  if s = "" then []
  else
    match (splitlinesGo s.data []).reverse with
    | "" :: rest => rest.reverse
    | other => other.reverse

/-- Python `str(v)` as used by the f-string interpolation of the search term
(`f"crontab -l | grep \x7bsearch_term\x7d"`); exact only for strings, which is the
declared parameter type; other JSON values are rendered approximately. -/
def pyStr : Json → String
  | Json.strVal s => s
  | Json.numVal n => intToStr n
  | Json.boolVal true => "True"
  | Json.boolVal false => "False"
  | Json.null => "None"
  | j => dumpsCompact j

/-! ## Tool functions (mcp_crontab_server.py lines 86-206) -/

/-- The four functions defined with `@mcp.tool()`.  The fastmcp decorator of
this repository's era returns the function object unchanged, so the module
globals keep plain callables under these names. -/
inductive ToolImpl where
  | fetchContents : ToolImpl
  | showSummary : ToolImpl
  | search : ToolImpl
  | checkStatus : ToolImpl
deriving Repr, DecidableEq

/-- Declared parameter names of each tool function (Python signature). -/
def requiredParams : ToolImpl → List String
  | ToolImpl.search => ["search_term"]
  | _ => []

/-- First value bound to a key in the parsed keyword arguments. -/
def lookupArg (args : List (String × Json)) (k : String) : Json :=
  match args.find? (fun kv => kv.1 = k) with
  | some kv => kv.2
  | none => Json.null

/-! ## The module global namespace -/

/-- One binding of the server module's `globals()`: its name, whether the
bound object is callable, whether `dir(obj)` contains an attribute name
starting with `__mcp` or containing `mcp` case-insensitively (line 47-50),
its docstring (already `.strip()`ed) and, for the four tool functions, the
implementation. -/
structure GlobalEntry where
  name : String
  isCallable : Bool
  hasMcpAttr : Bool
  doc : Option String
  impl : Option ToolImpl
deriving Repr, DecidableEq

/-- A module, number or instance binding: not callable. -/
def gObj (n : String) : GlobalEntry :=
  { name := n, isCallable := false, hasMcpAttr := false, doc := none, impl := none }

/-- A callable non-tool binding (imported class or plain module function).
None of their `dir()` listings contains an attribute name with the substring
`mcp`: plain functions and the http.server / fastmcp classes only expose
dunder and protocol-named attributes. -/
def gFun (n : String) : GlobalEntry :=
  { name := n, isCallable := true, hasMcpAttr := false, doc := none, impl := none }

/-- A tool function binding: callable, with docstring; plain function objects
carry no `mcp`-named attributes (the decorator returns the bare function and
sets none). -/
def gTool (n : String) (d : String) (i : ToolImpl) : GlobalEntry :=
  { name := n, isCallable := true, hasMcpAttr := false, doc := some d, impl := some i }

/-- The server module's global bindings at request time, in definition order
(imports, configuration, then the functions and classes of
mcp_crontab_server.py).  Note line 87: the first tool is named
`fetch__crontab_contents` (contents, double underscore). -/
def moduleGlobals : List GlobalEntry :=
  [gObj "subprocess", gObj "sys", gObj "datetime", gObj "os", gObj "socket",
   gObj "threading", gObj "json",
   gFun "HTTPServer", gFun "BaseHTTPRequestHandler", gFun "FastMCP",
   gObj "time", gObj "mcp", gObj "HOST", gObj "PORT",
   gFun "get_registered_tools",
   gTool "fetch__crontab_contents" "Fetch cron jobs for the app" ToolImpl.fetchContents,
   gTool "show_scheduled_task_summary" "Show most recent related cron log output"
     ToolImpl.showSummary,
   gTool "search_crontab_entries" "Search for crontab entries containing a specific term"
     ToolImpl.search,
   gTool "check_server_status" "Check the status of the MCP server" ToolImpl.checkStatus,
   gFun "MCPHTTPHandler", gFun "check_port_in_use", gFun "main"]

/-- `globals().get(name)` (line 271, 327). -/
def findGlobal (g : List GlobalEntry) (n : String) : Option GlobalEntry :=
  g.find? (fun e => e.name = n)

/-- The known tool names checked by name at line 56-57. -/
def knownToolNames : List String :=
  ["fetch__crontab_entries", "fetch__crontab_entries_count",
   "show_scheduled_task_summary", "check_server_status", "search_crontab_entries"]

/-- The hardcoded fallback list at lines 69-75 (the same five names). -/
def hardcodedTools : List String := knownToolNames

/-- `get_registered_tools` (lines 27-81): scan the globals for callables that
either expose an mcp-named attribute or are named in `knownToolNames`; if the
scan finds nothing, fall back to the hardcoded list. -/
def get_registered_tools (g : List GlobalEntry) : List String :=
  let tools := (g.filter
    (fun e => e.isCallable && (e.hasMcpAttr || knownToolNames.contains e.name))).map
    (fun e => e.name)
  if tools = [] then hardcodedTools else tools

/-! ## Tool invocation -/

/-- The body of each tool function.  Every body catches its own exceptions
and returns an envelope, so invocation with correctly bound arguments is a
total function of the world. -/
def invokeTool (g : List GlobalEntry) (w : World) (impl : ToolImpl)
    (args : List (String × Json)) : Json :=
  match impl with
  | ToolImpl.fetchContents =>
      let r := w.run "crontab -l"
      if r.1 = 0 ∧ r.2.1 ≠ "" then
        let entries := pySplitlines r.2.1
        jObj [("status", Json.strVal "success"),
              ("type", Json.strVal "crontab_entries"),
              ("count", Json.numVal (entries.length : Int)),
              ("entries", jArr (entries.map Json.strVal)),
              ("raw_data", Json.strVal r.2.1),
              ("timestamp", Json.strVal w.now)]
      else
        jObj [("status", Json.strVal "warning"),
              ("type", Json.strVal "crontab_entries"),
              ("count", Json.numVal 0),
              ("message", Json.strVal "No crontab entries found or error occurred."),
              ("timestamp", Json.strVal w.now)]
  | ToolImpl.showSummary =>
      let r := w.run "tail -n 10 /var/log/syslog"
      if r.1 = 0 ∧ r.2.1 ≠ "" then
        jObj [("status", Json.strVal "success"),
              ("type", Json.strVal "log_entries"),
              ("count", Json.numVal ((pySplitlines r.2.1).length : Int)),
              ("data", Json.strVal r.2.1),
              ("timestamp", Json.strVal w.now)]
      else
        jObj [("status", Json.strVal "warning"),
              ("message", Json.strVal "No recent cron logs found or error occurred."),
              ("timestamp", Json.strVal w.now)]
  | ToolImpl.search =>
      let term := pyStr (lookupArg args "search_term")
      let r := w.run ("crontab -l | grep " ++ term)
      if r.1 = 0 ∧ r.2.1 ≠ "" then
        let entries := pySplitlines r.2.1
        jObj [("status", Json.strVal "success"),
              ("type", Json.strVal "search_results"),
              ("query", Json.strVal term),
              ("count", Json.numVal (entries.length : Int)),
              ("entries", jArr (entries.map Json.strVal)),
              ("raw_data", Json.strVal r.2.1),
              ("timestamp", Json.strVal w.now)]
      else
        jObj [("status", Json.strVal "warning"),
              ("type", Json.strVal "search_results"),
              ("query", Json.strVal term),
              ("count", Json.numVal 0),
              ("message", Json.strVal
                ("No crontab entries found containing \x27" ++ term
                  ++ "\x27 or error occurred.")),
              ("timestamp", Json.strVal w.now)]
  | ToolImpl.checkStatus =>
      jObj [("status", Json.strVal "online"),
            ("server_name", Json.strVal "MCP Crontab Explorer Server"),
            ("version", Json.strVal "1.0.0"),
            ("tools_available", Json.numVal ((get_registered_tools g).length : Int)),
            ("pid", Json.numVal w.pid),
            ("timestamp", Json.strVal w.now)]

/-- Keyword-argument binding of `tool_func(**params)`: `params` must be a
JSON object whose key set is exactly the declared parameter set; otherwise a
TypeError is raised (caught by do_POST's try block).  The error strings
mirror CPython's messages. -/
def bindKwargs (fname : String) (impl : ToolImpl) (params : Json) :
    Except String (List (String × Json)) :=
  match objFieldsOf params with
  | none => Except.error "argument after ** must be a mapping"
  | some fields =>
      match fields.find? (fun kv => !(requiredParams impl).contains kv.1) with
      | some kv =>
          Except.error (fname ++ "() got an unexpected keyword argument \x27"
            ++ kv.1 ++ "\x27")
      | none =>
          match (requiredParams impl).find? (fun p => !(fields.map Prod.fst).contains p) with
          | some p =>
              Except.error (fname ++ "() missing 1 required positional argument: \x27"
                ++ p ++ "\x27")
          | none => Except.ok fields

/-! ## HTTP responses (MCPHTTPHandler, lines 209-255)

`send_response` also emits Server and Date headers automatically; only the
headers the handler sends explicitly are modelled, none of the claims concern
the automatic ones. -/

/-- A serialised HTTP response: status code, explicitly sent headers in
order, body string (bytes via UTF-8). -/
structure HttpResponse where
  status : Nat
  headers : List (String × String)
  body : String
deriving Repr, DecidableEq

/-- `_send_json_response` (lines 227-242): 200, four headers including
Access-Control-Allow-Origin and a Content-Length computed from the encoded
body, body serialised with indent=2. -/
def sendJsonResponse (data : Json) : HttpResponse :=
  let response := dumpsIndent data
  { status := 200
    headers := [("Content-type", "application/json"),
                ("Access-Control-Allow-Origin", "*"),
                ("Connection", "close"),
                ("Content-Length", natToStr (utf8Length response))]
    body := response }

/-- `_handle_error` (lines 244-255): the given status code, compact
`\x7b"error": message\x7d` body, three headers — Access-Control-Allow-Origin is
not among them. -/
def handleError (statusCode : Nat) (message : String) : HttpResponse :=
  let errorJson := dumpsCompact (jObj [("error", Json.strVal message)])
  { status := statusCode
    headers := [("Content-type", "application/json"),
                ("Connection", "close"),
                ("Content-Length", natToStr (utf8Length errorJson))]
    body := errorJson }

/-! ## GET handling (do_GET, lines 257-302) -/

/-- Description shown for a tool in discovery (lines 269-292): the stripped
docstring of the global of that name when it exists and is non-empty,
otherwise "No description available", possibly replaced by one of four
hardcoded fallbacks. -/
def toolDescription (g : List GlobalEntry) (toolName : String) : String :=
  let d0 :=
    match findGlobal g toolName with
    | some e =>
        match e.doc with
        | some ds => ds
        | none => "No description available"
    | none => "No description available"
  if d0 = "No description available" then
    if toolName = "fetch_crontab_entries" then "Fetch cron jobs for the  app"
    else if toolName = "fetch_crontab_entries_count" then
      "Fetch the count of cron jobs for the  app"
    else if toolName = "show_scheduled_task_summary" then
      "Show most recent  related cron log output"
    else if toolName = "check_server_status" then "Check the status of the MCP server"
    else d0
  else d0

/-- The JSON array sent by discovery: one `\x7bname, description\x7d` object per
registered tool, in registry order. -/
def discoveryJson (g : List GlobalEntry) : Json :=
  jArr ((get_registered_tools g).map (fun n =>
    jObj [("name", Json.strVal n), ("description", Json.strVal (toolDescription g n))]))

/-- The liveness/info object returned for every other GET path
(lines 296-301). -/
def serverInfoJson : Json :=
  jObj [("name", Json.strVal "MCP Crontab Explorer Server"),
        ("version", Json.strVal "1.0.0"),
        ("status", Json.strVal "online")]

/-- `do_GET`: `/tools` answers the discovery catalog, every other path the
liveness object; both through `_send_json_response`. -/
def do_GET (g : List GlobalEntry) (path : String) : HttpResponse :=
  if path = "/tools" then sendJsonResponse (discoveryJson g)
  else sendJsonResponse serverInfoJson

/-- The tool names appearing in a discovery response (the `name` field of
each member of the served array). -/
def jsonArrNames : Json → List String
  | Json.arrCons h t =>
      (match h with
       | Json.objCons "name" (Json.strVal n) _ => [n]
       | _ => []) ++ jsonArrNames t
  | _ => []

/-! ## POST handling (do_POST, lines 304-342) -/

/-- A POST request as the handler sees it: the path, the Content-Length
header if present (well-formed: a malformed header would raise in `int()`,
outside this model), and the readable byte stream of the body. Bytes are
modelled as characters; every concrete input in this development is ASCII. -/
structure HttpRequest where
  path : String
  contentLengthHeader : Option Nat
  stream : String
deriving Repr, DecidableEq

/-- `self.rfile.read(n)`: exactly the announced count of bytes is taken from
the stream. -/
def takeStr (n : Nat) (s : String) : String := ⟨s.data.take n⟩

/-- What leaves do_POST: either a response was written, or an exception
escaped the method (the connection is closed by the surrounding
socketserver machinery with nothing written). -/
inductive HandlerOutcome where
  | response : HttpResponse → HandlerOutcome
  | raised : String → HandlerOutcome
deriving Repr, DecidableEq

/-- Observable record of one do_POST run: its outcome, how many body bytes
were read from the stream, and which tool function (if any) was invoked. -/
structure PostResult where
  outcome : HandlerOutcome
  bytesRead : Nat
  invokedTool : Option String
deriving Repr, DecidableEq

/-- `path.split("/")[-1]`: the suffix after the last slash (the whole string
when no slash occurs). -/
def afterLastSlash (l : List Char) : List Char :=
  (l.reverse.takeWhile (fun c => c ≠ '/')).reverse

/-- The tool name extracted from the request path (line 309). -/
def lastPathComponent (s : String) : String := ⟨afterLastSlash s.data⟩

/-- Boolean string sameness-of-start test, `path.startswith("/tools/")`. -/
def startsWithChars : List Char → List Char → Bool
  | [], _ => true
  | _ :: _, [] => false
  | a :: as, b :: bs => a = b && startsWithChars as bs

/-- `s.startswith(p)`. -/
def startsWithStr (s p : String) : Bool := startsWithChars p.data s.data

/-- Lines 321-340, after the body was read: parse it (`json.loads` is outside
the try block — a parse failure raises out of do_POST), look the tool up in
`globals()`, bind `**params`, call the tool; TypeErrors and tool-machinery
exceptions are caught by the try block and become HTTP 500
`Error calling tool: ...` responses.  Returns (outcome, invoked tool). -/
def dispatchBody (g : List GlobalEntry) (w : World) (toolName : String)
    (postData : String) : HandlerOutcome × Option String :=
  match (if postData = "" then some (jObj []) else parseJson postData : Option Json) with
  | none => (HandlerOutcome.raised "json.JSONDecodeError", none)
  | some params =>
      match findGlobal g toolName with
      | none =>
          (HandlerOutcome.response (handleError 500
            ("Tool function \x27" ++ toolName ++ "\x27 not found in globals")), none)
      | some entry =>
          match entry.impl with
          | none =>
              (HandlerOutcome.response (handleError 500
                ("Error calling tool: \x27" ++ toolName ++ "\x27 object is not callable")),
               none)
          | some impl =>
              match bindKwargs toolName impl params with
              | Except.error cause =>
                  (HandlerOutcome.response (handleError 500
                    ("Error calling tool: " ++ cause)), none)
              | Except.ok args =>
                  (HandlerOutcome.response (sendJsonResponse (invokeTool g w impl args)),
                   some toolName)

/-- `do_POST` (lines 304-342). The registry check precedes the body read:
an unknown tool is answered 404 with zero body bytes consumed; a path
outside /tools/ is answered 404 "Invalid endpoint". -/
def do_POST (g : List GlobalEntry) (w : World) (req : HttpRequest) : PostResult :=
  if startsWithStr req.path "/tools/" then
    let toolName := lastPathComponent req.path
    if toolName ∈ get_registered_tools g then
      let contentLength := req.contentLengthHeader.getD 0
      let postData := takeStr contentLength req.stream
      let step := dispatchBody g w toolName postData
      { outcome := step.1, bytesRead := contentLength, invokedTool := step.2 }
    else
      { outcome := HandlerOutcome.response (handleError 404
          ("Tool \x27" ++ toolName ++ "\x27 not found"))
        bytesRead := 0
        invokedTool := none }
  else
    { outcome := HandlerOutcome.response (handleError 404 "Invalid endpoint")
      bytesRead := 0
      invokedTool := none }

/-! ## One server, any request -/

/-- Request method. -/
inductive HttpMethod where
  | get : HttpMethod
  | post : HttpMethod
deriving Repr, DecidableEq

/-- A request of either method. -/
structure FullRequest where
  method : HttpMethod
  path : String
  contentLengthHeader : Option Nat
  stream : String
deriving Repr, DecidableEq

/-- Handle one request with either handler. -/
def handleRequest (g : List GlobalEntry) (w : World) (req : FullRequest) : PostResult :=
  match req.method with
  | HttpMethod.get =>
      { outcome := HandlerOutcome.response (do_GET g req.path)
        bytesRead := 0, invokedTool := none }
  | HttpMethod.post =>
      do_POST g w { path := req.path, contentLengthHeader := req.contentLengthHeader,
                    stream := req.stream }

/-- One step of the protocol server: handle a request and return the
server's state afterwards.  The handlers only read `globals()`; no handler
assigns a module global, so the registry state is returned unchanged
(spec sections 4.1 and 5: the registry is populated once at startup and is
thereafter read-only). -/
def serverStep (g : List GlobalEntry) (w : World) (req : FullRequest) :
    PostResult × List GlobalEntry :=
  (handleRequest g w req, g)

/-- The server state after a sequence of handled requests. -/
def stateAfter (g : List GlobalEntry) : List (World × FullRequest) → List GlobalEntry
  | [] => g
  | (w, r) :: rest => stateAfter (serverStep g w r).2 rest

/-! ## Client (mcp_crontab_client_http.py) -/

/-- The client's base URL (lines 20-22). -/
def clientBaseUrl : String := "http://127.0.0.1:8000"

/-- The outcome of one `requests.post` call as the client observes it:
a response with status and text, a `requests.RequestException`
(timeouts and connection errors are its subclasses), or any other
exception. -/
inductive TransportResult where
  | ok : Nat → String → TransportResult
  | requestExc : String → TransportResult
  | otherExc : String → TransportResult
deriving Repr, DecidableEq

/-- What `call_tool` reports to the console, one constructor per distinct
branch of the source (lines 44-62). -/
inductive ClientReport where
  | gotResult : ClientReport
  | emptyResponse : ClientReport
  | invalidJson : String → ClientReport
  | badStatus : Nat → String → ClientReport
  | requestError : String → ClientReport
  | unexpectedError : String → ClientReport
deriving Repr, DecidableEq

/-- The URL and serialised JSON body `call_tool` sends for a tool name and
parameter dict (`params=None` maps to the empty object, lines 38-42). -/
def clientRequestOf (toolName : String) (params : Option Json) : String × String :=
  (clientBaseUrl ++ "/tools/" ++ toolName, dumpsCompact (params.getD (jObj [])))

/-- `call_tool` (lines 26-62).  The transport oracle maps (url, body) to the
outcome of `requests.post`.  Every exception branch of the source is one
total branch here: the function never raises to its caller.  Python's
`response.json()` of the body "null" returns the object None, which the
caller cannot tell apart from the error return; the model keeps the parsed
value (`some Json.null`), which is finer than the source but does not affect
any claim. -/
def call_tool (transport : String → String → TransportResult)
    (toolName : String) (params : Option Json) : Option Json × ClientReport :=
  let req := clientRequestOf toolName params
  match transport req.1 req.2 with
  | TransportResult.ok code text =>
      if code = 200 then
        if text = "" then (none, ClientReport.emptyResponse)
        else
          match parseJson text with
          | some j => (some j, ClientReport.gotResult)
          | none => (none, ClientReport.invalidJson text)
      else (none, ClientReport.badStatus code text)
  | TransportResult.requestExc m => (none, ClientReport.requestError m)
  | TransportResult.otherExc m => (none, ClientReport.unexpectedError m)

/-! ## Client startup wait loop (main, lines 170-186) -/

/-- How the startup connectivity phase ends: the client proceeds to
discovery after the reachability probe numbered `attempt` succeeded, or the
process terminates with the given exit status. -/
inductive StartupOutcome where
  | proceed : Nat → StartupOutcome
  | exitFailure : Nat → StartupOutcome
deriving Repr, DecidableEq

/-- The outcome together with the trace of `time.sleep` durations the loop
performed. -/
structure StartupResult where
  outcome : StartupOutcome
  sleeps : List Nat
deriving Repr, DecidableEq

/-- The `for _ in range(15)` retry loop (lines 177-186): each iteration
sleeps 2 seconds and then probes once; a success breaks out, exhaustion
falls through to the for-else and `return 1`.  `probe k` is the result of
the k-th call of `check_server_running` (the 0th is the initial check
before the loop). -/
def startupGo (probe : Nat → Bool) : Nat → Nat → StartupResult
  | 0, _ => { outcome := StartupOutcome.exitFailure 1, sleeps := [] }
  | fuel + 1, k =>
      if probe k then { outcome := StartupOutcome.proceed k, sleeps := [2] }
      else
        { outcome := (startupGo probe fuel (k + 1)).outcome
          sleeps := 2 :: (startupGo probe fuel (k + 1)).sleeps }

/-- The whole startup connectivity phase: the initial probe, then at most 15
probes at a fixed 2-second interval. -/
def startupWait (probe : Nat → Bool) : StartupResult :=
  if probe 0 then { outcome := StartupOutcome.proceed 0, sleeps := [] }
  else startupGo probe 15 1

/-! ## Observation helpers -/

/-- Status code of an outcome, when a response was written at all. -/
def outcomeStatus : HandlerOutcome → Option Nat
  | HandlerOutcome.response r => some r.status
  | HandlerOutcome.raised _ => none

/-- First field of the given name in a JSON object. -/
def jsonField (j : Json) (k : String) : Option Json :=
  match objFieldsOf j with
  | some fs => (fs.find? (fun kv => kv.1 = k)).map (fun kv => kv.2)
  | none => none

/-- The value of the Content-Length header of a response. -/
def contentLengthOf (r : HttpResponse) : Option String :=
  (r.headers.find? (fun h => h.1 = "Content-Length")).map (fun h => h.2)

/-- Minimal valid parameters per tool, serialised as a request body: the
empty body (which do_POST maps to the empty keyword set) for the
parameterless tools, a search_term for `search_crontab_entries`. -/
def minimalBody (n : String) : String :=
  if n = "search_crontab_entries" then lbrace ++ "\"search_term\": \"backup\"" ++ rbrace
  else ""

/-- The invocation request `POST /tools/n` with the minimal valid body. -/
def minimalPost (n : String) : HttpRequest :=
  { path := "/tools/" ++ n,
    contentLengthHeader := some (minimalBody n).length,
    stream := minimalBody n }

/-! ## Path and stream lemmas -/

lemma takeWhile_append_all (p : Char → Bool) (l r : List Char)
    (h : ∀ c ∈ l, p c = true) :
    (l ++ r).takeWhile p = l ++ r.takeWhile p := by
  induction l with
  | nil => simp
  | cons a as ih =>
      have ha : p a = true := h a (by simp)
      simp [List.takeWhile_cons, ha, ih (fun c hc => h c (by simp [hc]))]

lemma lastPathComponent_append (n : String) (hn : '/' ∉ n.data) :
    lastPathComponent ("/tools/" ++ n) = n := by
  show String.mk (afterLastSlash ("/tools/" ++ n).data) = n
  have hd : ("/tools/" ++ n).data = "/tools/".data ++ n.data := rfl
  unfold afterLastSlash
  rw [hd, List.reverse_append]
  have h2 : "/tools/".data.reverse = '/' :: ['s', 'l', 'o', 'o', 't', '/'] := by decide
  rw [h2, takeWhile_append_all _ _ _ (fun c hc => by
    simp only [decide_eq_true_eq]
    intro hcontra
    exact hn (by rw [← hcontra]; exact List.mem_reverse.mp hc))]
  simp only [List.takeWhile_cons, decide_eq_true_eq]
  norm_num

lemma startsWithChars_append (l r : List Char) : startsWithChars l (l ++ r) = true := by
  induction l with
  | nil => rfl
  | cons a as ih => simp [startsWithChars, ih]

lemma startsWith_tools (n : String) :
    startsWithStr ("/tools/" ++ n) "/tools/" = true := by
  show startsWithChars "/tools/".data ("/tools/".data ++ n.data) = true
  exact startsWithChars_append _ _

lemma takeStr_length (s : String) : takeStr s.length s = s := by
  show String.mk (s.data.take s.data.length) = s
  rw [List.take_length]

/-- Unknown tool: do_POST answers 404 before reading any body byte and
invokes nothing. -/
lemma do_POST_unregistered (g : List GlobalEntry) (w : World) (n : String)
    (clh : Option Nat) (st : String)
    (hn : '/' ∉ n.data) (hreg : n ∉ get_registered_tools g) :
    do_POST g w { path := "/tools/" ++ n, contentLengthHeader := clh, stream := st }
      = { outcome := HandlerOutcome.response (handleError 404
            ("Tool \x27" ++ n ++ "\x27 not found"))
          bytesRead := 0
          invokedTool := none } := by
  unfold do_POST
  simp [startsWith_tools, lastPathComponent_append n hn, hreg]

/-- Registered tool: the body is read (exactly the announced count) and
handed to the dispatch steps. -/
lemma do_POST_registered (g : List GlobalEntry) (w : World) (n : String)
    (clh : Option Nat) (st : String)
    (hn : '/' ∉ n.data) (hreg : n ∈ get_registered_tools g) :
    do_POST g w { path := "/tools/" ++ n, contentLengthHeader := clh, stream := st }
      = { outcome := (dispatchBody g w n (takeStr (clh.getD 0) st)).1
          bytesRead := clh.getD 0
          invokedTool := (dispatchBody g w n (takeStr (clh.getD 0) st)).2 } := by
  unfold do_POST
  simp [startsWith_tools, lastPathComponent_append n hn, hreg]

/-! ## Response-shape classification -/

/-- Every outcome of the dispatch steps is the JSON-decode exception, a
success response built by `_send_json_response`, or an HTTP 500 built by
`_handle_error`. -/
lemma dispatchBody_classify (g : List GlobalEntry) (w : World) (tn pd : String) :
    (dispatchBody g w tn pd).1 = HandlerOutcome.raised "json.JSONDecodeError"
    ∨ (∃ j, (dispatchBody g w tn pd).1 = HandlerOutcome.response (sendJsonResponse j))
    ∨ (∃ m, (dispatchBody g w tn pd).1 = HandlerOutcome.response (handleError 500 m)) := by
  rcases hp : (if pd = "" then some (jObj []) else parseJson pd : Option Json)
      with _ | params
  · exact Or.inl (by simp [dispatchBody, hp])
  · rcases hg : findGlobal g tn with _ | entry
    · refine Or.inr (Or.inr
        ⟨"Tool function \x27" ++ tn ++ "\x27 not found in globals", ?_⟩)
      simp [dispatchBody, hp, hg]
    · rcases hi : entry.impl with _ | impl
      · refine Or.inr (Or.inr
          ⟨"Error calling tool: \x27" ++ tn ++ "\x27 object is not callable", ?_⟩)
        simp [dispatchBody, hp, hg, hi]
      · rcases hb : bindKwargs tn impl params with cause | args
        · refine Or.inr (Or.inr ⟨"Error calling tool: " ++ cause, ?_⟩)
          simp [dispatchBody, hp, hg, hi, hb]
        · refine Or.inr (Or.inl ⟨invokeTool g w impl args, ?_⟩)
          simp [dispatchBody, hp, hg, hi, hb]

/-- Every response either handler writes is built by `_send_json_response`
or by `_handle_error` with status 404 or 500. -/
lemma handleRequest_classify (g : List GlobalEntry) (w : World) (req : FullRequest)
    (r : HttpResponse) (h : (handleRequest g w req).outcome = HandlerOutcome.response r) :
    (∃ j, r = sendJsonResponse j)
    ∨ (∃ m, r = handleError 404 m)
    ∨ (∃ m, r = handleError 500 m) := by
  rcases req with ⟨method, path, clh, stream⟩
  cases method with
  | get =>
      simp only [handleRequest, HandlerOutcome.response.injEq] at h
      unfold do_GET at h
      by_cases hp : path = "/tools" <;> simp [hp] at h <;>
        exact Or.inl ⟨_, h.symm⟩
  | post =>
      simp only [handleRequest] at h
      unfold do_POST at h
      by_cases hs : startsWithStr path "/tools/" = true
      · simp only [hs, if_true] at h
        by_cases hm : lastPathComponent path ∈ get_registered_tools g
        · simp only [hm, if_true] at h
          rcases dispatchBody_classify g w (lastPathComponent path)
              (takeStr (clh.getD 0) stream) with hc | ⟨j, hc⟩ | ⟨m, hc⟩
          · rw [hc] at h; exact absurd h (by simp)
          · rw [hc] at h
            exact Or.inl ⟨j, by injection h with h2; exact h2.symm⟩
          · rw [hc] at h
            exact Or.inr (Or.inr ⟨m, by injection h with h2; exact h2.symm⟩)
        · simp only [hm, if_false] at h
          exact Or.inr (Or.inl ⟨_, by injection h with h2; exact h2.symm⟩)
      · simp only [hs, if_false] at h
        exact Or.inr (Or.inl ⟨_, by injection h with h2; exact h2.symm⟩)

/-- The headers of a `_send_json_response` response: all three of the spec's
headers are present and Content-Length is the byte length of the body. -/
lemma sendJsonResponse_headers (j : Json) :
    ("Connection", "close") ∈ (sendJsonResponse j).headers
    ∧ ("Access-Control-Allow-Origin", "*") ∈ (sendJsonResponse j).headers
    ∧ contentLengthOf (sendJsonResponse j)
        = some (natToStr (utf8Length (sendJsonResponse j).body))
    ∧ (sendJsonResponse j).status = 200 := by
  refine ⟨?_, ?_, rfl, rfl⟩
  · exact List.Mem.tail _ (List.Mem.tail _ (List.Mem.head _))
  · exact List.Mem.tail _ (List.Mem.head _)

/-- The headers of a `_handle_error` response: Connection close and an
accurate Content-Length are present, Access-Control-Allow-Origin is not. -/
lemma handleError_headers (c : Nat) (m : String) :
    ("Connection", "close") ∈ (handleError c m).headers
    ∧ ("Access-Control-Allow-Origin", "*") ∉ (handleError c m).headers
    ∧ contentLengthOf (handleError c m)
        = some (natToStr (utf8Length (handleError c m).body))
    ∧ (handleError c m).status = c := by
  refine ⟨List.Mem.tail _ (List.Mem.head _), ?_, rfl, rfl⟩
  intro hmem
  simp [handleError] at hmem

/-! ## Startup wait loop lemmas -/

lemma startupGo_all_false (probe : Nat → Bool) :
    ∀ fuel k, (∀ j, k ≤ j → j < k + fuel → probe j = false) →
      startupGo probe fuel k
        = { outcome := StartupOutcome.exitFailure 1, sleeps := List.replicate fuel 2 } := by
  intro fuel
  induction fuel with
  | zero => intro k _; rfl
  | succ fuel ih =>
      intro k h
      have hk : probe k = false := h k (Nat.le_refl k) (by omega)
      have hrec := ih (k + 1) (fun j h1 h2 => h j (by omega) (by omega))
      simp [startupGo, hk, hrec, List.replicate_succ]

lemma startupGo_finds (probe : Nat → Bool) :
    ∀ fuel k, (∃ j, k ≤ j ∧ j < k + fuel ∧ probe j = true) →
      ∃ j, k ≤ j ∧ j < k + fuel ∧ probe j = true
        ∧ (startupGo probe fuel k).outcome = StartupOutcome.proceed j := by
  intro fuel
  induction fuel with
  | zero => intro k ⟨j, h1, h2, _⟩; omega
  | succ fuel ih =>
      intro k ⟨j, h1, h2, h3⟩
      cases hk : probe k with
      | true => exact ⟨k, Nat.le_refl k, by omega, hk, by simp [startupGo, hk]⟩
      | false =>
          have hj : j ≠ k := fun he => by rw [he, hk] at h3; exact Bool.noConfusion h3
          obtain ⟨j2, g1, g2, g3, g4⟩ := ih (k + 1) ⟨j, by omega, by omega, h3⟩
          refine ⟨j2, by omega, by omega, g3, ?_⟩
          simp only [startupGo, hk, Bool.false_eq_true, if_false]
          exact g4

lemma startupGo_sleeps (probe : Nat → Bool) :
    ∀ fuel k, (∀ s ∈ (startupGo probe fuel k).sleeps, s = 2)
      ∧ (startupGo probe fuel k).sleeps.length ≤ fuel := by
  intro fuel
  induction fuel with
  | zero => intro k; exact ⟨by intro s hs; simp [startupGo] at hs, by simp [startupGo]⟩
  | succ fuel ih =>
      intro k
      cases hk : probe k with
      | true => refine ⟨?_, ?_⟩ <;> simp [startupGo, hk]
      | false =>
          obtain ⟨ha, hl⟩ := ih (k + 1)
          constructor
          · intro s hs
            simp only [startupGo, hk, Bool.false_eq_true, if_false, List.mem_cons] at hs
            rcases hs with hs | hs
            · exact hs
            · exact ha s hs
          · simp only [startupGo, hk, Bool.false_eq_true, if_false, List.length_cons]
            omega

/-- The server state is never changed by handling requests. -/
lemma stateAfter_id (g : List GlobalEntry) :
    ∀ evs : List (World × FullRequest), stateAfter g evs = g := by
  intro evs
  induction evs with
  | nil => rfl
  | cons e rest ih =>
      obtain ⟨w, r⟩ := e
      exact ih

/-! ## Claim theorems -/

/-- C1: the set of tool names in the discovery response equals the set of
names whose invocation with minimal valid parameters returns HTTP 200: a
name (with no slash, as a path segment) appears in `GET /tools` output
exactly when `POST /tools/name` with the minimal valid body is dispatched to
its handler and answered 200, for every world. -/
theorem c1_discovery_invocation_consistency (n : String) (hn : '/' ∉ n.data) :
    n ∈ jsonArrNames (discoveryJson moduleGlobals) ↔
      ∀ w : World,
        outcomeStatus (do_POST moduleGlobals w (minimalPost n)).outcome = some 200 := by
  have hnames : jsonArrNames (discoveryJson moduleGlobals)
      = get_registered_tools moduleGlobals := by decide
  constructor
  · intro hmem w
    rw [hnames] at hmem
    have hlist : get_registered_tools moduleGlobals
        = ["show_scheduled_task_summary", "search_crontab_entries",
           "check_server_status"] := by decide
    rw [hlist] at hmem
    have h3 : n = "show_scheduled_task_summary" ∨ n = "search_crontab_entries"
        ∨ n = "check_server_status" := by simpa using hmem
    rcases h3 with h | h | h <;> subst h <;> rfl
  · intro hall
    by_contra hmem
    rw [hnames] at hmem
    have hpost := do_POST_unregistered moduleGlobals defaultWorld n
      (some (minimalBody n).length) (minimalBody n) hn hmem
    have h200 := hall defaultWorld
    have hmp : minimalPost n
        = ⟨"/tools/" ++ n, some (minimalBody n).length, minimalBody n⟩ := rfl
    rw [hmp, hpost] at h200
    simp [outcomeStatus, handleError] at h200

/-- C1 witness: `check_server_status` is in the discovery response, hence its
minimal invocation returns 200 in the default world. -/
theorem c1_witness :
    outcomeStatus (do_POST moduleGlobals defaultWorld
      (minimalPost "check_server_status")).outcome = some 200 :=
  (c1_discovery_invocation_consistency "check_server_status" (by decide)).mp
    (by decide) defaultWorld

/-- C2: a `POST /tools/check_server_status` whose 8-byte body is not valid
JSON makes `json.loads` (which sits outside the try block) raise out of
do_POST — no response envelope is produced and no tool is invoked; while an
empty body is mapped to the empty parameter dict and the tool is invoked. -/
theorem c2_invalid_json_handler_raises :
    do_POST moduleGlobals defaultWorld
        { path := "/tools/check_server_status", contentLengthHeader := some 8,
          stream := "not json" }
      = { outcome := HandlerOutcome.raised "json.JSONDecodeError", bytesRead := 8,
          invokedTool := none }
    ∧ (do_POST moduleGlobals defaultWorld
        { path := "/tools/check_server_status", contentLengthHeader := none,
          stream := "" }).invokedTool = some "check_server_status" := by
  exact ⟨by decide, by decide⟩

/-- C3 counterexample: invoking `search_crontab_entries` with body `\x7b\x7d`
(missing the required search_term) yields HTTP 500 with an `error`-keyed
body, not a Failure envelope — the body parses to an object that has neither
a `status` nor a `message` field. -/
theorem c3_counterexample :
    (do_POST moduleGlobals defaultWorld
        { path := "/tools/search_crontab_entries", contentLengthHeader := some 2,
          stream := lbrace ++ rbrace }).outcome
      = HandlerOutcome.response (handleError 500
          ("Error calling tool: search_crontab_entries() missing 1 required positional argument: \x27search_term\x27"))
    ∧ (handleError 500
        ("Error calling tool: search_crontab_entries() missing 1 required positional argument: \x27search_term\x27")).status
      ≠ 200
    ∧ parseJson (handleError 500
        ("Error calling tool: search_crontab_entries() missing 1 required positional argument: \x27search_term\x27")).body
      = some (jObj [("error", Json.strVal
          "Error calling tool: search_crontab_entries() missing 1 required positional argument: \x27search_term\x27")])
    ∧ jsonField (jObj [("error", Json.strVal
          "Error calling tool: search_crontab_entries() missing 1 required positional argument: \x27search_term\x27")])
        "message" = none
    ∧ jsonField (jObj [("error", Json.strVal
          "Error calling tool: search_crontab_entries() missing 1 required positional argument: \x27search_term\x27")])
        "status" = none := by
  exact ⟨by decide, by decide, by decide, by decide, by decide⟩

/-- C3 (amended): a missing required parameter or other keyword-binding
failure while invoking a registered tool is caught, and answered as HTTP 500
with body `\x7b"error": "Error calling tool: <cause>"\x7d`; no tool is
invoked. -/
theorem c3_missing_param_http500 (w : World) (n : String) (body : String) (v : Json)
    (e : GlobalEntry) (impl : ToolImpl) (cause : String)
    (hn : '/' ∉ n.data)
    (hreg : n ∈ get_registered_tools moduleGlobals)
    (hbody : body ≠ "")
    (hv : parseJson body = some v)
    (he : findGlobal moduleGlobals n = some e)
    (hi : e.impl = some impl)
    (hb : bindKwargs n impl v = Except.error cause) :
    do_POST moduleGlobals w
        { path := "/tools/" ++ n, contentLengthHeader := some body.length, stream := body }
      = { outcome := HandlerOutcome.response (handleError 500
            ("Error calling tool: " ++ cause))
          bytesRead := body.length
          invokedTool := none } := by
  rw [do_POST_registered moduleGlobals w n (some body.length) body hn hreg]
  simp only [Option.getD_some, takeStr_length]
  simp [dispatchBody, hbody, hv, he, hi, hb]

/-- C3 witness: the amended claim at the concrete counterexample input. -/
theorem c3_witness :
    do_POST moduleGlobals defaultWorld
        { path := "/tools/" ++ "search_crontab_entries",
          contentLengthHeader := some (lbrace ++ rbrace : String).length,
          stream := lbrace ++ rbrace }
      = { outcome := HandlerOutcome.response (handleError 500
            ("Error calling tool: "
              ++ "search_crontab_entries() missing 1 required positional argument: \x27search_term\x27"))
          bytesRead := (lbrace ++ rbrace : String).length
          invokedTool := none } :=
  c3_missing_param_http500 defaultWorld "search_crontab_entries" (lbrace ++ rbrace)
    (jObj [])
    (gTool "search_crontab_entries" "Search for crontab entries containing a specific term"
      ToolImpl.search)
    ToolImpl.search
    "search_crontab_entries() missing 1 required positional argument: \x27search_term\x27"
    (by decide) (by decide) (by decide) (by decide) (by decide) (by decide) rfl

/-- C4 counterexample: the 404 response for an unknown tool carries no
Access-Control-Allow-Origin header, refuting the claim that every response
carries it. -/
theorem c4_counterexample :
    (do_POST moduleGlobals defaultWorld
        { path := "/tools/frobnicate", contentLengthHeader := none, stream := "" }).outcome
      = HandlerOutcome.response (handleError 404 "Tool \x27frobnicate\x27 not found")
    ∧ ("Access-Control-Allow-Origin", "*")
        ∉ (handleError 404 "Tool \x27frobnicate\x27 not found").headers := by
  exact ⟨by decide, by decide⟩

/-- C4 (amended): every response either handler writes carries
`Connection: close` and a Content-Length equal to the byte length of its
body; the responses written by `_send_json_response` (exactly the HTTP 200
ones) also carry `Access-Control-Allow-Origin: *`, while the error responses
written by `_handle_error` (status 404/500) do not. -/
theorem c4_response_headers (g : List GlobalEntry) (w : World) (req : FullRequest)
    (r : HttpResponse)
    (h : (handleRequest g w req).outcome = HandlerOutcome.response r) :
    ("Connection", "close") ∈ r.headers
    ∧ contentLengthOf r = some (natToStr (utf8Length r.body))
    ∧ (r.status = 200 → ("Access-Control-Allow-Origin", "*") ∈ r.headers)
    ∧ (r.status ≠ 200 → ("Access-Control-Allow-Origin", "*") ∉ r.headers) := by
  rcases handleRequest_classify g w req r h with ⟨j, rfl⟩ | ⟨m, rfl⟩ | ⟨m, rfl⟩
  · obtain ⟨h1, h2, h3, h4⟩ := sendJsonResponse_headers j
    exact ⟨h1, h3, fun _ => h2, fun hne => absurd h4 hne⟩
  · obtain ⟨h1, h2, h3, h4⟩ := handleError_headers 404 m
    refine ⟨h1, h3, fun h200 => ?_, fun _ => h2⟩
    rw [h4] at h200
    exact absurd h200 (by decide)
  · obtain ⟨h1, h2, h3, h4⟩ := handleError_headers 500 m
    refine ⟨h1, h3, fun h200 => ?_, fun _ => h2⟩
    rw [h4] at h200
    exact absurd h200 (by decide)

/-- C4 witness: the amended claim at a concrete liveness GET. -/
theorem c4_witness :
    ("Connection", "close") ∈ (sendJsonResponse serverInfoJson).headers
    ∧ contentLengthOf (sendJsonResponse serverInfoJson)
        = some (natToStr (utf8Length (sendJsonResponse serverInfoJson).body))
    ∧ ((sendJsonResponse serverInfoJson).status = 200 →
        ("Access-Control-Allow-Origin", "*") ∈ (sendJsonResponse serverInfoJson).headers)
    ∧ ((sendJsonResponse serverInfoJson).status ≠ 200 →
        ("Access-Control-Allow-Origin", "*") ∉ (sendJsonResponse serverInfoJson).headers) :=
  c4_response_headers moduleGlobals defaultWorld
    { method := HttpMethod.get, path := "/", contentLengthHeader := none, stream := "" }
    (sendJsonResponse serverInfoJson) (by decide)

/-- C5: `POST /tools/n` for an unregistered name `n` is answered HTTP 404
with body `\x7b"error": "Tool \x27n\x27 not found"\x7d`, no body byte is read and no
tool is invoked. -/
theorem c5_unknown_tool_404 (w : World) (n : String) (clh : Option Nat) (body : String)
    (hn : '/' ∉ n.data) (hreg : n ∉ get_registered_tools moduleGlobals) :
    do_POST moduleGlobals w
        { path := "/tools/" ++ n, contentLengthHeader := clh, stream := body }
      = { outcome := HandlerOutcome.response (handleError 404
            ("Tool \x27" ++ n ++ "\x27 not found"))
          bytesRead := 0
          invokedTool := none }
    ∧ (handleError 404 ("Tool \x27" ++ n ++ "\x27 not found")).status = 404
    ∧ (handleError 404 ("Tool \x27" ++ n ++ "\x27 not found")).body
      = dumpsCompact (jObj [("error", Json.strVal ("Tool \x27" ++ n ++ "\x27 not found"))]) :=
  ⟨do_POST_unregistered moduleGlobals w n clh body hn hreg, rfl, rfl⟩

/-- C5 witness: the unregistered name `frobnicate` (spec scenario 3). -/
theorem c5_witness :
    do_POST moduleGlobals defaultWorld
        { path := "/tools/" ++ "frobnicate", contentLengthHeader := some 5,
          stream := "hello" }
      = { outcome := HandlerOutcome.response (handleError 404
            ("Tool \x27" ++ "frobnicate" ++ "\x27 not found"))
          bytesRead := 0
          invokedTool := none } :=
  (c5_unknown_tool_404 defaultWorld "frobnicate" (some 5) "hello"
    (by decide) (by decide)).1

/-- C6: the startup wait loop is bounded: if some probe among the initial
one and the 15 retries succeeds, the client proceeds to discovery after that
attempt; if none succeeds, it terminates with exit status 1 after exactly 15
sleeps; every sleep is the fixed 2-second interval and there are at most 15
of them — the loop always terminates. -/
theorem c6_retry_loop_bounded (probe : Nat → Bool) :
    ((∃ k, k ≤ 15 ∧ probe k = true) →
       ∃ k, k ≤ 15 ∧ probe k = true
         ∧ (startupWait probe).outcome = StartupOutcome.proceed k)
    ∧ ((∀ k, k ≤ 15 → probe k = false) →
       (startupWait probe).outcome = StartupOutcome.exitFailure 1
         ∧ (startupWait probe).sleeps = List.replicate 15 2)
    ∧ (∀ s ∈ (startupWait probe).sleeps, s = 2)
    ∧ (startupWait probe).sleeps.length ≤ 15 := by
  refine ⟨?_, ?_, ?_, ?_⟩
  · rintro ⟨k, hk15, hk⟩
    cases h0 : probe 0 with
    | true => exact ⟨0, by omega, h0, by simp [startupWait, h0]⟩
    | false =>
        have hk0 : k ≠ 0 := fun he => by rw [he, h0] at hk; exact Bool.noConfusion hk
        obtain ⟨j, g1, g2, g3, g4⟩ := startupGo_finds probe 15 1
          ⟨k, by omega, by omega, hk⟩
        refine ⟨j, by omega, g3, ?_⟩
        simp only [startupWait, h0, Bool.false_eq_true, if_false]
        exact g4
  · intro hall
    have h0 : probe 0 = false := hall 0 (by omega)
    have hgo := startupGo_all_false probe 15 1 (fun j h1 h2 => hall j (by omega))
    constructor <;> simp [startupWait, h0, hgo]
  · cases h0 : probe 0 with
    | true => simp [startupWait, h0]
    | false =>
        have hs := (startupGo_sleeps probe 15 1).1
        simp only [startupWait, h0, Bool.false_eq_true, if_false]
        exact hs
  · cases h0 : probe 0 with
    | true => simp [startupWait, h0]
    | false =>
        have hs := (startupGo_sleeps probe 15 1).2
        simp only [startupWait, h0, Bool.false_eq_true, if_false]
        omega

/-- C6 witness: a probe that first succeeds on attempt 3 makes the client
proceed within the budget; a probe that never succeeds produces exit status 1
after the 15 fixed-interval sleeps. -/
theorem c6_witness :
    (∃ k, k ≤ 15 ∧ (fun i => decide (i = 3)) k = true
      ∧ (startupWait (fun i => decide (i = 3))).outcome = StartupOutcome.proceed k)
    ∧ ((startupWait (fun _ => false)).outcome = StartupOutcome.exitFailure 1
      ∧ (startupWait (fun _ => false)).sleeps = List.replicate 15 2) :=
  ⟨(c6_retry_loop_bounded (fun i => decide (i = 3))).1 ⟨3, by omega, by decide⟩,
   (c6_retry_loop_bounded (fun _ => false)).2.1 (fun _ _ => rfl)⟩

/-- C7: every GET whose path is not `/tools` is answered 200 with the
liveness object `\x7bname, version, status: online\x7d`, regardless of the
path and of the registry contents. -/
theorem c7_liveness_default_get (g : List GlobalEntry) (path : String)
    (h : path ≠ "/tools") :
    do_GET g path = sendJsonResponse serverInfoJson
    ∧ (do_GET g path).status = 200
    ∧ (do_GET g path).body = dumpsIndent (jObj
        [("name", Json.strVal "MCP Crontab Explorer Server"),
         ("version", Json.strVal "1.0.0"),
         ("status", Json.strVal "online")]) := by
  have h1 : do_GET g path = sendJsonResponse serverInfoJson := by simp [do_GET, h]
  exact ⟨h1, by rw [h1]; rfl, by rw [h1]; rfl⟩

/-- C7 witness: the path `/status` against the module registry. -/
theorem c7_witness :
    do_GET moduleGlobals "/status" = sendJsonResponse serverInfoJson
    ∧ (do_GET moduleGlobals "/status").status = 200
    ∧ (do_GET moduleGlobals "/status").body = dumpsIndent (jObj
        [("name", Json.strVal "MCP Crontab Explorer Server"),
         ("version", Json.strVal "1.0.0"),
         ("status", Json.strVal "online")]) :=
  c7_liveness_default_get moduleGlobals "/status" (by decide)

/-- C8 counterexample: a POST to an unregistered tool name announcing
Content-Length 5 is answered without reading the body — 0 bytes are read,
not the announced 5, refuting the claim for every `POST /tools/\x7bname\x7d`
request. -/
theorem c8_counterexample :
    (do_POST moduleGlobals defaultWorld
      { path := "/tools/frobnicate", contentLengthHeader := some 5,
        stream := "hello" }).bytesRead = 0
    ∧ (do_POST moduleGlobals defaultWorld
      { path := "/tools/frobnicate", contentLengthHeader := some 5,
        stream := "hello" }).bytesRead ≠ 5 := by
  exact ⟨by decide, by decide⟩

/-- C8 (amended): for a registered tool name the body read is exactly the
announced Content-Length (0 when the header is absent); for an unregistered
name the 404 is written without reading the body at all. -/
theorem c8_body_read_scoped (w : World) (n : String) (clh : Option Nat)
    (stream : String) (hn : '/' ∉ n.data) :
    (n ∈ get_registered_tools moduleGlobals →
       (do_POST moduleGlobals w
           { path := "/tools/" ++ n, contentLengthHeader := clh, stream := stream }).bytesRead
         = clh.getD 0)
    ∧ (n ∈ get_registered_tools moduleGlobals → clh = none →
       (do_POST moduleGlobals w
           { path := "/tools/" ++ n, contentLengthHeader := clh, stream := stream }).bytesRead
         = 0)
    ∧ (n ∉ get_registered_tools moduleGlobals →
       (do_POST moduleGlobals w
           { path := "/tools/" ++ n, contentLengthHeader := clh, stream := stream }).bytesRead
         = 0) := by
  refine ⟨fun hreg => ?_, fun hreg hnone => ?_, fun hreg => ?_⟩
  · rw [do_POST_registered moduleGlobals w n clh stream hn hreg]
  · rw [do_POST_registered moduleGlobals w n clh stream hn hreg, hnone]
    rfl
  · rw [do_POST_unregistered moduleGlobals w n clh stream hn hreg]

/-- C8 witness: a registered tool with an announced 7-byte body reads
exactly 7 bytes. -/
theorem c8_witness :
    (do_POST moduleGlobals defaultWorld
      { path := "/tools/" ++ "check_server_status", contentLengthHeader := some 7,
        stream := "1234567" }).bytesRead = (some 7 : Option Nat).getD 0 :=
  (c8_body_read_scoped defaultWorld "check_server_status" (some 7) "1234567"
    (by decide)).1 (by decide)

/-- C9: discovery is idempotent — the `GET /tools` body after any sequence
of handled requests is byte-identical to the body after any other sequence
(in particular, two consecutive discovery calls agree), because no handler
mutates the registry state. -/
theorem c9_discovery_idempotent (g : List GlobalEntry)
    (evs1 evs2 : List (World × FullRequest)) :
    (do_GET (stateAfter g evs1) "/tools").body
      = (do_GET (stateAfter g evs2) "/tools").body := by
  rw [stateAfter_id g evs1, stateAfter_id g evs2]

/-- C10: `call_tool` is a total function of the transport outcome (it never
raises: each except branch of the source is one branch here); it returns the
parsed JSON exactly when the server answered 200 with a non-empty body that
parses, and in each other case returns None with a distinct report:
request-level exceptions, other exceptions, non-200 statuses, empty bodies
and undecodable bodies are reported by distinct constructors. -/
theorem c10_call_tool_classification (transport : String → String → TransportResult)
    (toolName : String) (params : Option Json) :
    (∀ j, (call_tool transport toolName params).1 = some j ↔
       (∃ text, transport (clientRequestOf toolName params).1
            (clientRequestOf toolName params).2 = TransportResult.ok 200 text
          ∧ text ≠ "" ∧ parseJson text = some j))
    ∧ ((call_tool transport toolName params).2 = ClientReport.gotResult ↔
        ((call_tool transport toolName params).1).isSome = true)
    ∧ (∀ m, transport (clientRequestOf toolName params).1
          (clientRequestOf toolName params).2 = TransportResult.requestExc m →
        call_tool transport toolName params = (none, ClientReport.requestError m))
    ∧ (∀ m, transport (clientRequestOf toolName params).1
          (clientRequestOf toolName params).2 = TransportResult.otherExc m →
        call_tool transport toolName params = (none, ClientReport.unexpectedError m))
    ∧ (∀ code text, transport (clientRequestOf toolName params).1
          (clientRequestOf toolName params).2 = TransportResult.ok code text →
        code ≠ 200 →
        call_tool transport toolName params = (none, ClientReport.badStatus code text))
    ∧ (transport (clientRequestOf toolName params).1
          (clientRequestOf toolName params).2 = TransportResult.ok 200 "" →
        call_tool transport toolName params = (none, ClientReport.emptyResponse))
    ∧ (∀ text, transport (clientRequestOf toolName params).1
          (clientRequestOf toolName params).2 = TransportResult.ok 200 text →
        text ≠ "" → parseJson text = none →
        call_tool transport toolName params = (none, ClientReport.invalidJson text)) := by
  cases ht : transport (clientRequestOf toolName params).1
      (clientRequestOf toolName params).2 with
  | ok code text =>
      by_cases hc : code = 200
      · subst hc
        by_cases he : text = ""
        · subst he
          refine ⟨?_, ?_, ?_, ?_, ?_, ?_, ?_⟩ <;> simp [call_tool, ht]
        · rcases hp : parseJson text with _ | j2
          · refine ⟨?_, ?_, ?_, ?_, ?_, ?_, ?_⟩ <;> simp [call_tool, ht, he, hp]
          · refine ⟨?_, ?_, ?_, ?_, ?_, ?_, ?_⟩ <;> simp [call_tool, ht, he, hp]
      · refine ⟨?_, ?_, ?_, ?_, ?_, ?_, ?_⟩ <;> simp [call_tool, ht, hc]
  | requestExc m => refine ⟨?_, ?_, ?_, ?_, ?_, ?_, ?_⟩ <;> simp [call_tool, ht]
  | otherExc m => refine ⟨?_, ?_, ?_, ?_, ?_, ?_, ?_⟩ <;> simp [call_tool, ht]

/-- C10 witness: a transport returning 200 with an undecodable body makes
call_tool return None with the invalid-JSON report. -/
theorem c10_witness :
    call_tool (fun _ _ => TransportResult.ok 200 "nope") "check_server_status" none
      = (none, ClientReport.invalidJson "nope") :=
  (c10_call_tool_classification (fun _ _ => TransportResult.ok 200 "nope")
    "check_server_status" none).2.2.2.2.2.2 "nope" rfl (by decide) (by decide)

end McpCrontab
